import Mathlib

/-!
# Verification of `autoencoder.py` (`stack_autoencoder`)

Shallow embedding of the stacked convolutional autoencoder in
`src/autoencoder.py`, and proofs about its construction-time control flow:
the constructor's validation, the `gen_model` build step (filter-size length
check, layer naming, codec name resolution), the per-stage gating
expressions of the encode and decode loops, the `codec` operator's
decode path, and the accessors `get_encoded` / `get_variable_for_layer`.

Python-level failures that the code can hit (TypeError from `str + int`,
AttributeError from a misspelled `tf.image` member, NameError from an
unbound `codec`, ValueError from explicit `raise`, IndexError from list
indexing) are modelled with an explicit error type and `Except`.
-/

/-- Python exception kinds raised (or raisable) by the code under study.
`valueError` carries the message of the corresponding `raise` statement. -/
inductive PyError where
  | valueError : String → PyError
  | typeError : PyError
  | attributeError : PyError
  | nameError : PyError
  | indexError : PyError
deriving DecidableEq

/-- The fragment of Python values needed to evaluate the expression
`'hidden_%d' % i+1`, which by precedence is `('hidden_%d' % i) + 1`. -/
inductive PyVal where
  | int : Int → PyVal
  | str : String → PyVal
deriving DecidableEq

/-- Python `+`: int+int adds, str+str concatenates, and a mixed
str/int addition raises `TypeError` (as `'hidden_0' + 1` does). -/
def pyAdd : PyVal → PyVal → Except PyError PyVal
  | .int a, .int b => .ok (.int (a + b))
  | .str a, .str b => .ok (.str (a ++ b))
  | _, _ => .error .typeError

deriving instance DecidableEq for Except

/-- Symbolic tensors: enough structure to distinguish the graph values the
claims talk about (opaque inputs, the scalar `zero_constant`, the result of
a nearest-neighbour resize, of conv+bias+relu with a given kernel shape,
and of max-pooling). -/
inductive Tensor where
  | base : Nat → Tensor
  | zeroConst : Tensor
  | resized : Tensor → Nat × Nat → Tensor
  | convRelu : Tensor → List Int → Tensor
  | pooled : Tensor → Tensor
deriving DecidableEq

namespace stack_autoencoder

/-! ## Constructor (`__init__`, lines 16-38) -/

/-- State recorded by a successful `__init__`:
the input shape, `layer_num`, and `hidden_outputs` with the input channel
count prepended (`self.hidden_outputs = self.in_shape[-1:] + hidden_outputs`). -/
structure InitState where
  in_shape : List (Option Nat)
  layer_num : Nat
  hidden_outputs : List (Option Nat)
deriving DecidableEq

/-- `stack_autoencoder.__init__` (lines 27-38). A tensor dimension is
`none` when it is statically unknown (TensorFlow `None`). The checks run
in source order: the shape check on `shape[-3:]` first, then the
`hidden_outputs` length check. -/
def init (shape : List (Option Nat)) (layer_num : Nat)
    (hidden_outputs : List Nat) : Except PyError InitState :=
  if (shape.drop (shape.length - 3)).contains none then
    .error (.valueError "The last 3-D shape must be known and cannot be None.")
  else if hidden_outputs.length ≠ layer_num then
    .error (.valueError "The length of the hidden_outputs must be equal layer_num.")
  else
    .ok { in_shape := shape
          layer_num := layer_num
          hidden_outputs := shape.drop (shape.length - 1) ++ hidden_outputs.map some }

/-! ## Codec operator (`codec`, lines 40-103) -/

/-- The members that module `tf.image` actually exposes for resizing in the
targeted TensorFlow 1.x API.  The code's call site spells the name
`resize_nearest_nerghbor`, which is not among them, so evaluating the
attribute access raises `AttributeError`. -/
def tfImageResizeMembers : List String :=
  ["resize_nearest_neighbor", "resize_bilinear", "resize_bicubic",
   "resize_area", "resize_images", "resize_image_with_crop_or_pad"]

/-- `stack_autoencoder.codec` (lines 65-103), with `is_encode` already a
`bool` (the `isinstance` check passes).  Decode path: the `new_size is None`
check runs first; then the upsampling call looks up the misspelled
`tf.image.resize_nearest_nerghbor`, raising `AttributeError` when absent.
Encode path: conv + bias + relu, then max-pool. -/
def codec (imgs : Tensor) (filter : List Int) (is_encode : Bool)
    (new_size : Option (Nat × Nat)) : Except PyError Tensor :=
  if is_encode then
    .ok (.pooled (.convRelu imgs filter))
  else
    match new_size with
    | none =>
        .error (.valueError "The value of the new_size must be set if the is_encode is False.")
    | some sz =>
        if tfImageResizeMembers.contains "resize_nearest_nerghbor" then
          .ok (.convRelu (.resized imgs sz) filter)
        else
          .error .attributeError

/-! ## Build step (`gen_model` / `__gen_model`, lines 105-174) -/

/-- Names resolvable inside the body of `__gen_model` (its locals, its
arguments, and the module's globals).  A Python class-body name such as
`codec` is *not* in scope inside a method, so the bare call
`codec(layer, filter, True, name=name)` at line 154 would raise
`NameError` if reached. -/
def genModelScopeNames : List String :=
  ["self", "filter_sizes", "scope", "zero_constant", "size_each_hidden",
   "layers", "i", "name", "filter", "layer", "include_fn", "exclude_fn",
   "hidden", "tf", "tools", "stack_autoencoder", "main", "__author__"]

/-- `stack_autoencoder.__gen_model` (lines 121-174), followed until its
first uncatchable failure.  Line 132 checks
`len(filter_sizes) != 1 or len(filter_sizes) != self.layer_num` — false only
when both disjuncts are false, i.e. `len == 1 and len == layer_num`.
When the check passes, lines 134-144 only create the placeholder, the zero
constant and the bookkeeping lists; the encode loop's first iteration
(`i = 0`) then evaluates `name = 'hidden_%d' % i+1`, i.e.
`('hidden_%d' % i) + 1`, a `str + int` that raises `TypeError`.  Were the
name ever computed, the call to the unbound name `codec` would raise
`NameError` (see `genModelScopeNames`). -/
def gen_model (layer_num : Nat) (filter_sizes : List (List Int)) :
    Except PyError Tensor :=
  if filter_sizes.length ≠ 1 ∨ filter_sizes.length ≠ layer_num then
    .error (.valueError "The length of filter_sizes must be equal 1 or layer_num.")
  else
    match pyAdd (.str ("hidden_" ++ toString (0 : Nat))) (.int 1) with
    | .error e => .error e
    | .ok _ => .error .nameError

/-! ## Gating expressions inside the build loops -/

/-- The `zero_constant` of line 135: `tf.constant(0.0, shape=())`. -/
def zero_constant : Tensor := .zeroConst

/-- Effective input of encode stage `i` (lines 149-153) as a function of
the runtime control value `v` fed to the `layer_train` placeholder:
`layer = layers[-1]`, and for `i != 0`,
`layer = tf.cond(tf.less(i, layer_train_ph), lambda: layers[-1], lambda: zero_constant)`. -/
def encodeStageInput (i v : Nat) (prevOut : Tensor) : Tensor :=
  if i ≠ 0 then
    if i < v then prevOut else zero_constant
  else prevOut

/-- Effective input of decode stage `i` (lines 164-168) as a function of
the runtime control value `v`: `layer = layers[-1]`, and for `i != 0`,
`layer = tf.cond(tf.less(i, layer_train_ph), lambda: layers[-1], lambda: layers[i])`,
where `layers[i]` is the encode output at depth `i` (the decode loop only
indexes `i < layer_num`, below every decode append). -/
def decodeStageInput (i v : Nat) (prevOut encodedAt : Tensor) : Tensor :=
  if i ≠ 0 then
    if i < v then prevOut else encodedAt
  else prevOut

/-- What claim C2 asserts the decode gating to be: the innermost stage
(`i = layer_num - 1`, first decode iteration) fed directly, every other
stage gated.  Kept separate from `decodeStageInput` (the code's behaviour)
so the two can be compared. -/
def decodeStageInputClaim (layer_num i v : Nat) (prevOut encodedAt : Tensor) : Tensor :=
  if i = layer_num - 1 then prevOut
  else if i < v then prevOut else encodedAt

/-! ## Accessors (`get_encoded`, lines 181-199) -/

/-- Post-build state assumed by the accessors: the `self.encoded` list and
`self.layer_num`. -/
structure SAState where
  encoded : List Tensor
  layer_num : Nat
deriving DecidableEq

/-- Python list indexing, negative indices included: `l[i]` for `i < 0`
reads position `len(l) + i`; out of range raises `IndexError`. -/
def pyListGet (l : List Tensor) (i : Int) : Except PyError Tensor :=
  let j : Int := if i < 0 then (l.length : Int) + i else i
  if 0 ≤ j then
    match l.get? j.toNat with
    | some t => .ok t
    | none => .error .indexError
  else .error .indexError

/-- `stack_autoencoder.get_encoded` (lines 194-199).  The source compares
`index > self.layer_num` *before* the `index is None` default is applied,
so a call with no argument (`index = None`) evaluates `None > int`, which
raises `TypeError` in Python 3. -/
def get_encoded (st : SAState) (index : Option Int) : Except PyError Tensor :=
  match index with
  | none => .error .typeError
  | some i =>
      if i > (st.layer_num : Int) then
        .error (.valueError "The index must be less than the layer_num.")
      else
        pyListGet st.encoded i

/-! ## Variable index (`get_variable_for_layer`, lines 206-225) -/

/-- `startsWithChars sub s`: `sub` is an initial run of `s` (char lists). -/
def startsWithChars : List Char → List Char → Bool
  | [], _ => true
  | _ :: _, [] => false
  | a :: as, b :: bs => a = b && startsWithChars as bs

/-- `containsSub sub s`: `sub` occurs contiguously inside `s` (char lists);
this is Python's `sub in s` on strings. -/
def containsSub (sub : List Char) : List Char → Bool
  | [] => startsWithChars sub []
  | b :: bs => startsWithChars sub (b :: bs) || containsSub sub bs

/-- Python `sub in s` for strings. -/
def pyStrIn (sub s : String) : Bool := containsSub sub.data s.data

/-- `'encoder/hidden_%d' % index`. -/
def encScopeName (index : Nat) : String := "encoder/hidden_" ++ toString index

/-- `'decoder/hidden_%d' % index`. -/
def decScopeName (index : Nat) : String := "decoder/hidden_" ++ toString index

/-- `stack_autoencoder.get_variable_for_layer` (lines 216-225), applied to
the names of the variables that `tf.trainable_variables` /
`tf.global_variables` returns for the model's scope: keeps a variable when
`('encoder/hidden_%d' % index) in var.name or ('decoder/hidden_%d' % index) in var.name`. -/
def get_variable_for_layer (index : Nat) (all_vars : List String) : List String :=
  all_vars.filter fun v => pyStrIn (encScopeName index) v || pyStrIn (decScopeName index) v

/-- A variable name is *created under* the namespace
`encoder/hidden_<index>` (or `decoder/...`) when its full name contains
that scope path closed by the `/` that TensorFlow appends before the
variable's own name — the namespace-membership reading of the claim. -/
def underLayerScope (index : Nat) (name : String) : Bool :=
  pyStrIn (encScopeName index ++ "/") name || pyStrIn (decScopeName index ++ "/") name

end stack_autoencoder

open stack_autoencoder

/-! ## Claims -/

/-- C1: for every encode stage `i` with `0 < i < layer_num` and every
runtime control value `v`, the effective input to the stage-`i` codec is
the true previous stage output when `i < v` and the zero-valued bypass
tensor (`zero_constant`) when `i >= v`; stage `i = 0` is always fed the
previous output directly, never gated. -/
theorem c1_encode_gating (i v layer_num : Nat) (_hi : i < layer_num) (prevOut : Tensor) :
    (0 < i →
      (i < v → encodeStageInput i v prevOut = prevOut) ∧
      (v ≤ i → encodeStageInput i v prevOut = zero_constant)) ∧
    encodeStageInput 0 v prevOut = prevOut := by
  refine ⟨fun h0 => ⟨fun hlt => ?_, fun hge => ?_⟩, ?_⟩
  · simp [encodeStageInput, Nat.pos_iff_ne_zero.mp h0, hlt]
  · simp [encodeStageInput, Nat.pos_iff_ne_zero.mp h0, Nat.not_lt.mpr hge]
  · simp [encodeStageInput]

/-- Witness for C1 at `layer_num = 2`: stage `i = 1` passes the true
previous output through for `v = 2` and bypasses to `zero_constant` for
`v = 1`. -/
theorem c1_encode_gating_witness :
    encodeStageInput 1 2 (Tensor.base 0) = Tensor.base 0 ∧
    encodeStageInput 1 1 (Tensor.base 0) = zero_constant :=
  ⟨((c1_encode_gating 1 2 2 (by decide) (Tensor.base 0)).1 (by decide)).1 (by decide),
   ((c1_encode_gating 1 1 2 (by decide) (Tensor.base 0)).1 (by decide)).2 (by decide)⟩

/-- C2 counterexample: at `layer_num = 2`, the innermost decode stage
`i = 1` (the first decode iteration) IS gated by the code — with control
`v = 1` it receives the `EncodedOutputs` entry at depth 1, while the claim
says the innermost stage gets the true previous output directly. -/
theorem c2_decode_innermost_counterexample :
    decodeStageInput 1 1 (Tensor.base 5) (Tensor.base 7) = Tensor.base 7 ∧
    decodeStageInputClaim 2 1 1 (Tensor.base 5) (Tensor.base 7) = Tensor.base 5 ∧
    decide (decodeStageInput 1 1 (Tensor.base 5) (Tensor.base 7) =
      decodeStageInputClaim 2 1 1 (Tensor.base 5) (Tensor.base 7)) = false := by
  refine ⟨rfl, rfl, rfl⟩

/-- C2 amended: in the decode loop it is stage `i = 0` (the final decode
iteration) that is fed the true previous output directly; every stage
`i > 0` — the innermost `i = layer_num - 1` included — selects the true
previous output when `i < v` and the `EncodedOutputs` entry at depth `i`
when `i >= v`. -/
theorem c2_decode_gating (i v : Nat) (prevOut encodedAt : Tensor) :
    (0 < i →
      (i < v → decodeStageInput i v prevOut encodedAt = prevOut) ∧
      (v ≤ i → decodeStageInput i v prevOut encodedAt = encodedAt)) ∧
    decodeStageInput 0 v prevOut encodedAt = prevOut := by
  refine ⟨fun h0 => ⟨fun hlt => ?_, fun hge => ?_⟩, ?_⟩
  · simp [decodeStageInput, Nat.pos_iff_ne_zero.mp h0, hlt]
  · simp [decodeStageInput, Nat.pos_iff_ne_zero.mp h0, Nat.not_lt.mpr hge]
  · simp [decodeStageInput]

/-- Witness for the amended C2: stage `i = 1` with `v = 2` passes the
previous output; with `v = 1` it falls back to the encode output at
depth 1; stage `i = 0` is direct. -/
theorem c2_decode_gating_witness :
    decodeStageInput 1 2 (Tensor.base 5) (Tensor.base 7) = Tensor.base 5 ∧
    decodeStageInput 1 1 (Tensor.base 5) (Tensor.base 7) = Tensor.base 7 ∧
    decodeStageInput 0 0 (Tensor.base 5) (Tensor.base 7) = Tensor.base 5 :=
  ⟨((c2_decode_gating 1 2 (Tensor.base 5) (Tensor.base 7)).1 (by decide)).1 (by decide),
   ((c2_decode_gating 1 1 (Tensor.base 5) (Tensor.base 7)).1 (by decide)).2 (by decide),
   (c2_decode_gating 0 0 (Tensor.base 5) (Tensor.base 7)).2⟩

/-- C3: the length check of line 132 uses `or` where its own error message
says "equal 1 or layer_num": for `layer_num = 2` it rejects a
`filter_sizes` of length exactly `layer_num` and also one of length 1,
raising `ValueError` instead of proceeding. -/
theorem c3_filter_sizes_check_rejects_valid :
    gen_model 2 [[3, 3], [5, 5]] =
      .error (.valueError "The length of filter_sizes must be equal 1 or layer_num.") ∧
    gen_model 2 [[3, 3]] =
      .error (.valueError "The length of filter_sizes must be equal 1 or layer_num.") :=
  ⟨rfl, rfl⟩

/-- C4: `gen_model` raises for every argument and never returns a model:
the length check raises `ValueError` unless `len(filter_sizes) = 1` and
`layer_num = 1`, in which case the encode loop's first name expression
`'hidden_%d' % i+1` (str + int) raises `TypeError` before any codec
invocation; moreover `codec` is not a resolvable name in the method body. -/
theorem c4_gen_model_always_raises (layer_num : Nat) (filter_sizes : List (List Int)) :
    gen_model layer_num filter_sizes =
      .error (if filter_sizes.length = 1 ∧ filter_sizes.length = layer_num
              then PyError.typeError
              else .valueError "The length of filter_sizes must be equal 1 or layer_num.") ∧
    genModelScopeNames.contains "codec" = false := by
  refine ⟨?_, by decide⟩
  by_cases h2 : filter_sizes.length = layer_num
  · subst h2
    by_cases h1 : filter_sizes.length = 1
    · simp [gen_model, h1, pyAdd]
    · simp [gen_model, h1]
  · simp [gen_model, h2]

/-- C5: in decode mode the codec raises `ValueError` when `new_size` is
absent; but when `new_size` is present it does not resize-then-convolve —
the misspelled `tf.image.resize_nearest_nerghbor` attribute access raises
`AttributeError` for every input. -/
theorem c5_codec_decode_eval (imgs : Tensor) (filter : List Int) (sz : Nat × Nat) :
    codec imgs filter false none =
      .error (.valueError "The value of the new_size must be set if the is_encode is False.") ∧
    codec imgs filter false (some sz) = .error .attributeError :=
  ⟨rfl, rfl⟩

/-! ## Substring helper lemmas (for the Variable Index claims) -/

/-- If the run `a ++ b` starts `s`, so does `a` alone. -/
theorem startsWithChars_of_append {a b s : List Char}
    (h : startsWithChars (a ++ b) s = true) : startsWithChars a s = true := by
  induction a generalizing s with
  | nil => rfl
  | cons c as ih =>
    cases s with
    | nil => simp [startsWithChars] at h
    | cons d ds =>
      simp only [List.cons_append, startsWithChars, Bool.and_eq_true,
        decide_eq_true_eq] at h ⊢
      exact ⟨h.1, ih h.2⟩

/-- If `a ++ b` occurs contiguously inside `s`, so does `a` alone. -/
theorem containsSub_of_append {a b s : List Char}
    (h : containsSub (a ++ b) s = true) : containsSub a s = true := by
  induction s with
  | nil => exact startsWithChars_of_append h
  | cons c cs ih =>
    simp only [containsSub, Bool.or_eq_true] at h ⊢
    rcases h with h | h
    · exact Or.inl (startsWithChars_of_append h)
    · exact Or.inr (ih h)

/-- Python `in`: an occurrence of `x ++ y` inside `s` yields one of `x`. -/
theorem pyStrIn_of_append {x y s : String}
    (h : pyStrIn (x ++ y) s = true) : pyStrIn x s = true := by
  unfold pyStrIn at h ⊢
  rw [String.data_append] at h
  exact containsSub_of_append h

/-- C6 counterexample: `get_variable_for_layer 1` keeps a variable of
layer 10 — `'encoder/hidden_1'` is a raw substring of
`'.../encoder/hidden_10/weights:0'` although that variable was not created
under the `encoder/hidden_1` (or `decoder/hidden_1`) namespace. -/
theorem c6_substring_leak_counterexample :
    get_variable_for_layer 1 ["stack_autoencoder/encoder/hidden_10/weights:0"] =
      ["stack_autoencoder/encoder/hidden_10/weights:0"] ∧
    underLayerScope 1 "stack_autoencoder/encoder/hidden_10/weights:0" = false :=
  ⟨rfl, rfl⟩

/-- C6 amended: the retrieval is substring-based, so it returns every
variable created under the `encoder/hidden_<index>` or
`decoder/hidden_<index>` namespace (possibly together with variables of
deeper-numbered layers sharing the decimal prefix), and it returns the
empty list — without error — for an index whose scope strings occur in no
variable name. -/
theorem c6_variable_index_amended (index : Nat) (all_vars : List String) :
    (∀ v ∈ all_vars, underLayerScope index v = true →
      v ∈ get_variable_for_layer index all_vars) ∧
    ((∀ v ∈ all_vars, pyStrIn (encScopeName index) v = false ∧
        pyStrIn (decScopeName index) v = false) →
      get_variable_for_layer index all_vars = []) := by
  constructor
  · intro v hv hscope
    have hmatch : (pyStrIn (encScopeName index) v || pyStrIn (decScopeName index) v) = true := by
      simp only [underLayerScope, Bool.or_eq_true] at hscope
      simp only [Bool.or_eq_true]
      rcases hscope with h | h
      · exact Or.inl (pyStrIn_of_append h)
      · exact Or.inr (pyStrIn_of_append h)
    exact List.mem_filter.mpr ⟨hv, hmatch⟩
  · intro hnone
    apply List.filter_eq_nil_iff.mpr
    intro v hv
    simp [(hnone v hv).1, (hnone v hv).2]

/-- Witness for the amended C6: a layer-1 variable is returned for
index 1, and index 99 yields the empty list. -/
theorem c6_variable_index_amended_witness :
    "stack_autoencoder/encoder/hidden_1/weights:0" ∈
      get_variable_for_layer 1 ["stack_autoencoder/encoder/hidden_1/weights:0"] ∧
    get_variable_for_layer 99 ["stack_autoencoder/encoder/hidden_1/weights:0"] = [] :=
  ⟨(c6_variable_index_amended 1 ["stack_autoencoder/encoder/hidden_1/weights:0"]).1
      "stack_autoencoder/encoder/hidden_1/weights:0" (by decide) (by decide),
   (c6_variable_index_amended 99 ["stack_autoencoder/encoder/hidden_1/weights:0"]).2
      (by decide)⟩

/-- C7: `get_encoded` compares `index > self.layer_num` before applying the
`None` default, so the documented no-argument call raises `TypeError`
(`None > int`) instead of returning the full-depth encoding; a call with
explicit index 0 does return the original input (`encoded[0]`). -/
theorem c7_get_encoded_default_eval (st : SAState) :
    get_encoded st none = .error .typeError ∧
    get_encoded ⟨[Tensor.base 0, Tensor.base 1], 1⟩ (some 0) = .ok (Tensor.base 0) :=
  ⟨rfl, rfl⟩

/-- C8: for every post-build state and every index strictly above
`layer_num`, `get_encoded` raises `ValueError` (the IndexOutOfRange of the
spec) and returns no tensor. -/
theorem c8_get_encoded_index_above (st : SAState) (i : Int)
    (h : (st.layer_num : Int) < i) :
    get_encoded st (some i) =
      .error (.valueError "The index must be less than the layer_num.") := by
  simp only [get_encoded]
  rw [if_pos h]

/-- Witness for C8: `layer_num = 0`, index 1. -/
theorem c8_get_encoded_index_above_witness :
    get_encoded ⟨[Tensor.base 0], 0⟩ (some 1) =
      .error (.valueError "The index must be less than the layer_num.") :=
  c8_get_encoded_index_above ⟨[Tensor.base 0], 0⟩ 1 (by decide)

/-- C9 counterexample: with an unknown width AND a wrong `hidden_outputs`
length, `__init__` raises the shape error, not the length error — so
"fails with ConfigMismatch whenever `len(hidden_outputs) != layer_num`" is
false as stated. -/
theorem c9_error_priority_counterexample :
    init [some 1, none, none, none] 2 [] =
      .error (.valueError "The last 3-D shape must be known and cannot be None.") ∧
    decide (init [some 1, none, none, none] 2 [] =
      .error (.valueError "The length of the hidden_outputs must be equal layer_num.")) = false :=
  ⟨rfl, rfl⟩

/-- C9 amended: the shape check runs first — an unknown dimension among the
last three yields the shape error regardless of the lengths; with the
shape fully known, a `hidden_outputs` length mismatch yields the length
error; with both checks passing, construction succeeds. -/
theorem c9_init_validation (shape : List (Option Nat)) (layer_num : Nat)
    (hidden_outputs : List Nat) :
    ((shape.drop (shape.length - 3)).contains none = true →
      init shape layer_num hidden_outputs =
        .error (.valueError "The last 3-D shape must be known and cannot be None.")) ∧
    ((shape.drop (shape.length - 3)).contains none = false →
      hidden_outputs.length ≠ layer_num →
      init shape layer_num hidden_outputs =
        .error (.valueError "The length of the hidden_outputs must be equal layer_num.")) ∧
    ((shape.drop (shape.length - 3)).contains none = false →
      hidden_outputs.length = layer_num →
      init shape layer_num hidden_outputs =
        .ok { in_shape := shape, layer_num := layer_num,
              hidden_outputs := shape.drop (shape.length - 1) ++ hidden_outputs.map some }) := by
  refine ⟨fun h => ?_, fun h hne => ?_, fun h heq => ?_⟩
  · unfold init
    rw [if_pos h]
  · unfold init
    rw [if_neg (by rw [h]; simp), if_pos hne]
  · unfold init
    rw [if_neg (by rw [h]; simp), if_neg (by simp [heq])]

/-- Witness for the amended C9: unknown width fails with the shape error;
known shape with a short `hidden_outputs` fails with the length error; a
consistent configuration succeeds. -/
theorem c9_init_validation_witness :
    init [some 4, some 2, none, some 3] 1 [5] =
      .error (.valueError "The last 3-D shape must be known and cannot be None.") ∧
    init [some 4, some 2, some 2, some 3] 2 [5] =
      .error (.valueError "The length of the hidden_outputs must be equal layer_num.") ∧
    init [some 4, some 2, some 2, some 3] 1 [5] =
      .ok { in_shape := [some 4, some 2, some 2, some 3], layer_num := 1,
            hidden_outputs := [some 3, some 5] } :=
  ⟨(c9_init_validation [some 4, some 2, none, some 3] 1 [5]).1 (by decide),
   (c9_init_validation [some 4, some 2, some 2, some 3] 2 [5]).2.1 (by decide) (by decide),
   (c9_init_validation [some 4, some 2, some 2, some 3] 1 [5]).2.2 (by decide) (by decide)⟩

/-- C10: `get_encoded` checks no lower bound, so a negative index `i` with
`-(layer_num+1) <= i < 0` does not raise: Python negative indexing returns
the `encoded` entry at position `layer_num + 1 + i`. -/
theorem c10_get_encoded_negative (st : SAState) (i : Int)
    (hlen : st.encoded.length = st.layer_num + 1)
    (h1 : -((st.layer_num : Int) + 1) ≤ i) (h2 : i < 0) :
    ∃ t, st.encoded.get? (((st.layer_num : Int) + 1 + i).toNat) = some t ∧
      get_encoded st (some i) = .ok t := by
  have hne : ¬ i > (st.layer_num : Int) := by omega
  have hlt : ((st.layer_num : Int) + 1 + i).toNat < st.encoded.length := by omega
  have hidx : ((st.encoded.length : Int) + i).toNat = ((st.layer_num : Int) + 1 + i).toNat := by
    omega
  refine ⟨st.encoded.get ⟨((st.layer_num : Int) + 1 + i).toNat, hlt⟩,
    List.get?_eq_get hlt, ?_⟩
  simp only [get_encoded]
  rw [if_neg hne]
  simp only [pyListGet]
  rw [if_pos h2]
  rw [if_pos (show (0 : Int) ≤ (st.encoded.length : Int) + i by omega)]
  rw [hidx, List.get?_eq_get hlt]

/-- Witness for C10: `layer_num = 2`, three recorded encode outputs, index
`-1` returns the deepest one. -/
theorem c10_get_encoded_negative_witness :
    ∃ t, [Tensor.base 0, Tensor.base 1, Tensor.base 2].get?
        (((2 : Nat) : Int) + 1 + (-1)).toNat = some t ∧
      get_encoded ⟨[Tensor.base 0, Tensor.base 1, Tensor.base 2], 2⟩ (some (-1)) = .ok t :=
  c10_get_encoded_negative ⟨[Tensor.base 0, Tensor.base 1, Tensor.base 2], 2⟩ (-1)
    rfl (by decide) (by decide)
